import Mathlib

/-!
# Verification of the federated-fraud-detection dashboard component

Shallow embedding of `frontend/src/components/Dashboard.jsx` from the
`SunnyRao07/Federated-Learning` repository: the fetch-and-reconcile state
machine (`fetchData` over the component's four `useState` fields), the
5000 ms poller wired up in `useEffect`, and the render-time formatting
expressions (status-banner severity and text, metric-card values,
differential-privacy chips, attack-defense percentages, improvement chips).

JavaScript numbers are modelled as rationals (`ℚ`), absent / `undefined`
values as `Option`, and a failed request as the `Except.error` case carrying
the error message.  `Number.prototype.toFixed` and
`Number.prototype.toExponential` are modelled by `toFixedQ` and
`toExponentialQ` (round half away from zero, which agrees with `toFixed` on
the decimal values appearing here).
-/

/-- JavaScript-style rounding to the nearest integer, half away from zero,
as performed by `toFixed` on the values of interest. -/
def jsRound (x : ℚ) : ℤ :=
  if 0 ≤ x then ⌊x + 1/2⌋ else ⌈x - 1/2⌉

/-- Pad a string with leading zero characters up to length `len`. -/
def padZeros (len : ℕ) (s : String) : String :=
  if len ≤ s.length then s
  else String.mk (List.replicate (len - s.length) '0') ++ s

/-- Model of JavaScript `x.toFixed(d)`: decimal notation with exactly `d`
fractional digits. -/
def toFixedQ (d : ℕ) (x : ℚ) : String :=
  let n : ℤ := jsRound (x * (10 : ℚ) ^ d)
  let sign : String := if n < 0 then "-" else ""
  let m : ℕ := n.natAbs
  if d = 0 then sign ++ toString (m)
  else sign ++ toString (m / 10 ^ d) ++ "." ++ padZeros d (toString (m % 10 ^ d))

/-- Exponent of the leading decimal digit of a positive rational: the unique
`e` with `10 ^ e ≤ x < 10 ^ (e + 1)`.  Computed from the digit counts of
numerator and denominator. -/
def expo10 (x : ℚ) : ℤ :=
  let dp : ℤ := (toString x.num.natAbs).length
  let dq : ℤ := (toString x.den).length
  let c : ℤ := dp - dq
  if (10 : ℚ) ^ c ≤ x then c else c - 1

/-- Model of JavaScript `x.toExponential(d)`: exponential notation with a
one-digit integer part and `d` fractional digits of mantissa. -/
def toExponentialQ (d : ℕ) (x : ℚ) : String :=
  if x = 0 then
    (if d = 0 then "0" else "0." ++ String.mk (List.replicate d '0')) ++ "e+0"
  else
    let sign : String := if x < 0 then "-" else ""
    let a : ℚ := |x|
    let e : ℤ := expo10 a
    let m0 : ℤ := jsRound (a / (10 : ℚ) ^ e * (10 : ℚ) ^ d)
    let m : ℤ := if m0 = 10 ^ (d + 1) then 10 ^ d else m0
    let e2 : ℤ := if m0 = 10 ^ (d + 1) then e + 1 else e
    let mantissa : String :=
      if d = 0 then toString m.natAbs
      else toString (m.natAbs / 10 ^ d) ++ "." ++ padZeros d (toString (m.natAbs % 10 ^ d))
    sign ++ mantissa ++ "e" ++ (if e2 < 0 then "-" else "+") ++ toString e2.natAbs

/-! ## Data model -/

/-- `metrics.federated_model`: the federated model scores read by the
headline metric cards. -/
structure FederatedModel where
  auc : Option ℚ
  «recall» : Option ℚ

/-- `metrics.improvement`: improvement deltas (percentage points) shown as
chips on the metric cards. -/
structure ImprovementDeltas where
  auc : Option ℚ
  «recall» : Option ℚ

/-- `metrics.privacy_metrics`: differential-privacy parameters. -/
structure PrivacyParams where
  epsilon : Option ℚ
  delta : Option ℚ
  noise_multiplier : Option ℚ
  l2_norm_clip : Option ℚ

/-- `metrics.privacy_attacks`: attack-defense rates.  The nested
`membership_inference?.defense_success_rate` and
`model_inversion?.defense_score` paths collapse to one optional rational
each (absent whenever any link of the optional chain is `undefined`). -/
structure PrivacyAttacks where
  overall_defense_rate : Option ℚ
  membership_inference_defense_success_rate : Option ℚ
  model_inversion_defense_score : Option ℚ

/-- The `metrics` response body (`metricsRes.data`). -/
structure MetricsSnapshot where
  federated_model : FederatedModel
  improvement : ImprovementDeltas
  privacy_metrics : PrivacyParams
  privacy_attacks : Option PrivacyAttacks
  communication_cost_mb : Option ℚ

/-- The `status` response body (`statusRes.data`). -/
structure StatusSnapshot where
  status : String
  message : String
  progress_percentage : ℚ

/-- The component's view state: the four `useState` fields of `Dashboard`. -/
structure ViewState where
  metrics : Option MetricsSnapshot
  status : Option StatusSnapshot
  loading : Bool
  error : Option String

/-- The initial state set by the `useState` initializers:
`metrics = null`, `status = null`, `loading = true`, `error = null`. -/
def initialState : ViewState :=
  { metrics := none, status := none, loading := true, error := none }

/-- The outcome of the two concurrent requests of one fetch cycle:
`getMetrics().catch(() => null)` never rejects and delivers `none` on
failure; `getStatus()` either delivers a status or rejects with an error
message. -/
structure FetchInput where
  metricsRes : Option MetricsSnapshot
  statusRes : Except String StatusSnapshot

/-- One fetch cycle (`fetchData`): on status success, store the metrics if
the metrics request delivered any, store the new status, clear the error;
on status failure, store the error message.  Either way (`finally`) clear
the loading flag. -/
def fetchData (inp : FetchInput) (s : ViewState) : ViewState :=
  match inp.statusRes with
  | Except.ok st =>
      let s1 : ViewState :=
        match inp.metricsRes with
        | some m => { s with metrics := some m }
        | none => s
      { s1 with status := some st, error := none, loading := false }
  | Except.error msg =>
      { s with error := some msg, loading := false }

/-- The view state after a sequence of completed fetch cycles. -/
def runCycles (ins : List FetchInput) (s : ViewState) : ViewState :=
  ins.foldl (fun st i => fetchData i st) s

/-! ## Poller -/

/-- The polling interval passed to `setInterval` (milliseconds). -/
def INTERVAL_MS : ℕ := 5000

/-- Fire times of the poller set up in `useEffect`: `fetchData()` runs
immediately at activation (time 0) and `setInterval(fetchData, 5000)` fires
5000 ms apart thereafter; the cleanup `clearInterval(interval)` at
deactivation time `deact` cancels every later firing, so `pollerFires deact
t` holds exactly when a fetch cycle starts `t` ms after activation. -/
def pollerFires (deact t : ℕ) : Bool :=
  (t % INTERVAL_MS == 0) && (t < deact)

/-! ## Render mapping -/

/-- Severity of the status banner, the nested conditional at
`Dashboard.jsx:78-84`. -/
def statusSeverity (tag : String) : String :=
  if tag == "completed" then "success"
  else if tag == "training" then "info"
  else if tag == "error" then "error"
  else "warning"

/-- Text of the status banner (`Dashboard.jsx:88`): the message, the literal
space between the two JSX expressions, and — only when the tag is
`training` — the progress percentage rounded to zero decimals in
parentheses (the `&&` short-circuit renders nothing otherwise). -/
def statusBannerText (st : StatusSnapshot) : String :=
  st.message ++ " " ++
    (if st.status == "training" then
      "(" ++ toFixedQ 0 st.progress_percentage ++ "%)"
    else "")

/-- JavaScript truthiness of the `error` field: a non-null, non-empty
string. -/
def errorTruthy (e : Option String) : Bool :=
  match e with
  | some msg => msg != ""
  | none => false

/-- Whether the fixed "No training data available. Please train the model
first." warning banner renders: the component returns early with a spinner
while `loading`, and the banner is guarded by `error && !metrics`
(`Dashboard.jsx:92`). -/
def trainFirstBannerShown (s : ViewState) : Bool :=
  !s.loading && errorTruthy s.error && s.metrics.isNone

/-- Value of the "Federated AUC" card:
`metrics.federated_model.auc?.toFixed(4) || 'N/A'`. -/
def aucCardValue (m : MetricsSnapshot) : String :=
  match m.federated_model.auc with
  | some x => toFixedQ 4 x
  | none => "N/A"

/-- Value of the "Recall" card:
`metrics.federated_model.recall?.toFixed(4) || 'N/A'`. -/
def recallCardValue (m : MetricsSnapshot) : String :=
  match m.federated_model.«recall» with
  | some x => toFixedQ 4 x
  | none => "N/A"

/-- Value of the "Privacy Budget (ε)" card:
`metrics.privacy_metrics.epsilon?.toFixed(2) || 'N/A'`. -/
def epsilonCardValue (m : MetricsSnapshot) : String :=
  match m.privacy_metrics.epsilon with
  | some x => toFixedQ 2 x
  | none => "N/A"

/-- Value of the "Communication Cost" card:
`` `${metrics.communication_cost_mb?.toFixed(2) || 0} MB` `` — note the
fallback is the number `0`, not the text `N/A`. -/
def commCostCardValue (m : MetricsSnapshot) : String :=
  (match m.communication_cost_mb with
   | some x => toFixedQ 2 x
   | none => "0") ++ " MB"

/-- Label of the ε chip: `` `ε = ${privacy.epsilon?.toFixed(2) || 'N/A'}` ``. -/
def epsilonChipLabel (p : PrivacyParams) : String :=
  "ε = " ++ (match p.epsilon with
             | some x => toFixedQ 2 x
             | none => "N/A")

/-- Label of the δ chip: `` `δ = ${privacy.delta?.toExponential(2) || 'N/A'}` ``. -/
def deltaChipLabel (p : PrivacyParams) : String :=
  "δ = " ++ (match p.delta with
             | some x => toExponentialQ 2 x
             | none => "N/A")

/-- Label of the noise chip: `` `Noise: ${privacy.noise_multiplier?.toFixed(2) || 'N/A'}` ``. -/
def noiseChipLabel (p : PrivacyParams) : String :=
  "Noise: " ++ (match p.noise_multiplier with
                | some x => toFixedQ 2 x
                | none => "N/A")

/-- Label of the clip chip: `` `Clip: ${privacy.l2_norm_clip?.toFixed(1) || 'N/A'}` ``. -/
def clipChipLabel (p : PrivacyParams) : String :=
  "Clip: " ++ (match p.l2_norm_clip with
               | some x => toFixedQ 1 x
               | none => "N/A")

/-- Rendered text for "Overall Defense Rate":
`(attacks.overall_defense_rate * 100).toFixed(1)` followed by the literal
`%`; an absent field propagates `NaN` through the multiplication and
`toFixed` renders it as the text `NaN`. -/
def overallDefenseText (a : PrivacyAttacks) : String :=
  (match a.overall_defense_rate with
   | some x => toFixedQ 1 (x * 100)
   | none => "NaN") ++ "%"

/-- Rendered text for "Membership Inference":
`(attacks.membership_inference?.defense_success_rate * 100).toFixed(1)`
followed by the literal `%`; `NaN` when the optional chain is absent. -/
def membershipInferenceText (a : PrivacyAttacks) : String :=
  (match a.membership_inference_defense_success_rate with
   | some x => toFixedQ 1 (x * 100)
   | none => "NaN") ++ "%"

/-- Rendered text for "Model Inversion":
`(attacks.model_inversion?.defense_score * 100).toFixed(1)` followed by the
literal `%`; `NaN` when the optional chain is absent. -/
def modelInversionText (a : PrivacyAttacks) : String :=
  (match a.model_inversion_defense_score with
   | some x => toFixedQ 1 (x * 100)
   | none => "NaN") ++ "%"

/-- Whether a metric card renders its improvement chip:
`improvement !== undefined && improvement > 0`. -/
def improvementChipShown (imp : Option ℚ) : Bool :=
  match imp with
  | some v => decide (0 < v)
  | none => false

/-- Label of the improvement chip:
`` `${improvement > 0 ? '+' : ''}${improvement.toFixed(1)}%` ``. -/
def improvementChipLabel (imp : ℚ) : String :=
  (if 0 < imp then "+" else "") ++ toFixedQ 1 imp ++ "%"


/-- A concrete metrics snapshot used to exercise the rendering functions. -/
def sampleMetrics : MetricsSnapshot :=
  { federated_model := { auc := some 0.95, «recall» := some 0.88 }
    improvement := { auc := none, «recall» := none }
    privacy_metrics :=
      { epsilon := some 1.2, delta := some (1 / 100000)
        noise_multiplier := some 1.1, l2_norm_clip := some 1 }
    privacy_attacks := none
    communication_cost_mb := some 12.34 }

/-- A concrete attack-defense snapshot used to exercise the rendering
functions. -/
def sampleAttacks : PrivacyAttacks :=
  { overall_defense_rate := some 0.957
    membership_inference_defense_success_rate := none
    model_inversion_defense_score := none }

/-! ## Helper lemmas -/

lemma fetchData_loading_false (inp : FetchInput) (s : ViewState) :
    (fetchData inp s).loading = false := by
  rcases inp with ⟨mRes, sRes⟩
  cases sRes with
  | ok st => cases mRes <;> rfl
  | error msg => rfl

lemma runCycles_cons (i : FetchInput) (t : List FetchInput) (s : ViewState) :
    runCycles (i :: t) s = runCycles t (fetchData i s) := rfl

lemma runCycles_loading_false (ins : List FetchInput) (s : ViewState)
    (h : ins ≠ []) : (runCycles ins s).loading = false := by
  induction ins generalizing s with
  | nil => exact absurd rfl h
  | cons i t ih =>
    rw [runCycles_cons]
    cases t with
    | nil => exact fetchData_loading_false i s
    | cons j u => exact ih (fetchData i s) (List.cons_ne_nil j u)

/-! ## Claims -/

/-- C1: the `loading` flag starts `true` (initializer `useState(true)`), the
`finally` block of `fetchData` sets it to `false` when the first cycle
completes — on status success or failure alike — and no later cycle ever
sets it back to `true`: after any sequence of completed cycles, `loading`
is `true` exactly when no cycle has completed yet. -/
theorem loading_flag_lifecycle :
    initialState.loading = true ∧
    (∀ (inp : FetchInput) (s : ViewState), (fetchData inp s).loading = false) ∧
    (∀ ins : List FetchInput,
      (runCycles ins initialState).loading = true ↔ ins = []) := by
  refine ⟨rfl, fetchData_loading_false, fun ins => ?_⟩
  cases ins with
  | nil => simp [runCycles, initialState]
  | cons i t =>
    constructor
    · intro h
      rw [runCycles_loading_false (i :: t) initialState (List.cons_ne_nil i t)] at h
      exact absurd h (by simp)
    · intro h
      exact absurd h (List.cons_ne_nil i t)

/-- C1 witness: concretely, `loading` is `true` initially and `false` after
one failed cycle and after one successful cycle. -/
theorem loading_flag_lifecycle_witness :
    initialState.loading = true ∧
    (runCycles [⟨none, Except.error "Network Error"⟩] initialState).loading = false ∧
    (runCycles [⟨none, Except.ok ⟨"completed", "Done", 100⟩⟩] initialState).loading = false := by
  refine ⟨loading_flag_lifecycle.1, ?_, ?_⟩
  · simpa using loading_flag_lifecycle.2.2 [⟨none, Except.error "Network Error"⟩]
  · simpa using loading_flag_lifecycle.2.2 [⟨none, Except.ok ⟨"completed", "Done", 100⟩⟩]

/-- C2: a cycle whose status request fails takes the `catch` branch, which
runs only `setError(err.message)` (and `setLoading(false)` in `finally`):
the error field holds the failure's message and the previously stored
metrics and status are untouched. -/
theorem failed_cycle_sets_error_keeps_data (s : ViewState)
    (mRes : Option MetricsSnapshot) (msg : String) :
    (fetchData ⟨mRes, Except.error msg⟩ s).error = some msg ∧
    (fetchData ⟨mRes, Except.error msg⟩ s).metrics = s.metrics ∧
    (fetchData ⟨mRes, Except.error msg⟩ s).status = s.status ∧
    (fetchData ⟨mRes, Except.error msg⟩ s).loading = false :=
  ⟨rfl, rfl, rfl, rfl⟩

/-- C3: a cycle whose metrics request fails (delivering `null` through
`.catch(() => null)`) while the status request succeeds completes the
success branch: the `if (metricsRes)` guard skips `setMetrics`, leaving the
stored metrics unchanged, the new status is stored, and the error field is
cleared to `null`. -/
theorem metrics_failure_is_tolerated (s : ViewState) (st : StatusSnapshot) :
    (fetchData ⟨none, Except.ok st⟩ s).error = none ∧
    (fetchData ⟨none, Except.ok st⟩ s).metrics = s.metrics ∧
    (fetchData ⟨none, Except.ok st⟩ s).status = some st ∧
    (fetchData ⟨none, Except.ok st⟩ s).loading = false :=
  ⟨rfl, rfl, rfl, rfl⟩

/-- C4: the poller fires a fetch cycle immediately at activation, then once
every `INTERVAL_MS = 5000` ms, and never at or after the deactivation time
at which `clearInterval` runs; every firing time is a multiple of 5000 ms
before deactivation. -/
theorem poller_schedule (deact : ℕ) :
    (0 < deact → pollerFires deact 0 = true) ∧
    (∀ k : ℕ, 0 < k → INTERVAL_MS * k < deact →
      pollerFires deact (INTERVAL_MS * k) = true) ∧
    (∀ t : ℕ, deact ≤ t → pollerFires deact t = false) ∧
    (∀ t : ℕ, pollerFires deact t = true →
      t < deact ∧ ∃ k : ℕ, t = INTERVAL_MS * k) := by
  refine ⟨fun h => ?_, fun k hk h => ?_, fun t ht => ?_, fun t ht => ?_⟩
  · simp [pollerFires, h]
  · simp [pollerFires, Nat.mul_mod_right, h]
  · simp [pollerFires, Nat.not_lt.mpr ht]
  · rw [pollerFires, Bool.and_eq_true] at ht
    refine ⟨by simpa using ht.2, ?_⟩
    have hmod : t % INTERVAL_MS = 0 := by simpa using ht.1
    exact ⟨t / INTERVAL_MS, (Nat.mul_div_cancel_left' (Nat.dvd_of_mod_eq_zero hmod)).symm⟩

/-- C4 witness: with deactivation 7000 ms after activation, the poller
fires at 0 ms and would not fire at 5000 ms only if torn down; at 10000 ms
(past deactivation) it does not fire. -/
theorem poller_schedule_witness :
    pollerFires 7000 0 = true ∧
    pollerFires 7000 5000 = true ∧
    pollerFires 7000 10000 = false := by
  refine ⟨(poller_schedule 7000).1 (by decide), ?_, (poller_schedule 7000).2.2.1 10000 (by decide)⟩
  have h := (poller_schedule 7000).2.1 1 (by decide) (by decide)
  simpa using h

/-- C5: the banner severity is the fixed mapping of the nested conditional:
`completed` to `success`, `training` to `info`, `error` to `error`, and any
other tag to `warning`. -/
theorem status_severity_mapping :
    statusSeverity "completed" = "success" ∧
    statusSeverity "training" = "info" ∧
    statusSeverity "error" = "error" ∧
    (∀ tag : String, tag ≠ "completed" → tag ≠ "training" → tag ≠ "error" →
      statusSeverity tag = "warning") := by
  refine ⟨rfl, rfl, rfl, fun tag h1 h2 h3 => ?_⟩
  simp [statusSeverity, h1, h2, h3]

/-- C5 witness: the unknown tag `idle` maps to `warning`. -/
theorem status_severity_mapping_witness : statusSeverity "idle" = "warning" :=
  status_severity_mapping.2.2.2 "idle" (by decide) (by decide) (by decide)

/-- C6 (amended): each numeric field is rendered rounded to its fixed number
of decimal places when present (δ in exponential notation with two mantissa
digits), and when absent the card values and privacy chips fall back to the
literal `N/A` — except the communication-cost card, whose `|| 0` fallback
renders `0 MB`, and the attack-defense percentage rows, where the absent
field propagates `NaN` and renders `NaN%`; percentage-style fields are the
underlying fraction multiplied by 100. -/
theorem numeric_field_rendering (m : MetricsSnapshot) (a : PrivacyAttacks) :
    (∀ x, m.federated_model.auc = some x → aucCardValue m = toFixedQ 4 x) ∧
    (m.federated_model.auc = none → aucCardValue m = "N/A") ∧
    (∀ x, m.federated_model.«recall» = some x → recallCardValue m = toFixedQ 4 x) ∧
    (m.federated_model.«recall» = none → recallCardValue m = "N/A") ∧
    (∀ x, m.privacy_metrics.epsilon = some x → epsilonCardValue m = toFixedQ 2 x) ∧
    (m.privacy_metrics.epsilon = none → epsilonCardValue m = "N/A") ∧
    (∀ x, m.communication_cost_mb = some x → commCostCardValue m = toFixedQ 2 x ++ " MB") ∧
    (m.communication_cost_mb = none → commCostCardValue m = "0 MB") ∧
    (∀ x, m.privacy_metrics.delta = some x →
      deltaChipLabel m.privacy_metrics = "δ = " ++ toExponentialQ 2 x) ∧
    (m.privacy_metrics.delta = none → deltaChipLabel m.privacy_metrics = "δ = N/A") ∧
    (∀ x, m.privacy_metrics.noise_multiplier = some x →
      noiseChipLabel m.privacy_metrics = "Noise: " ++ toFixedQ 2 x) ∧
    (m.privacy_metrics.noise_multiplier = none →
      noiseChipLabel m.privacy_metrics = "Noise: N/A") ∧
    (∀ x, m.privacy_metrics.l2_norm_clip = some x →
      clipChipLabel m.privacy_metrics = "Clip: " ++ toFixedQ 1 x) ∧
    (m.privacy_metrics.l2_norm_clip = none →
      clipChipLabel m.privacy_metrics = "Clip: N/A") ∧
    (∀ x, a.overall_defense_rate = some x →
      overallDefenseText a = toFixedQ 1 (x * 100) ++ "%") ∧
    (a.overall_defense_rate = none → overallDefenseText a = "NaN%") ∧
    (∀ x, a.membership_inference_defense_success_rate = some x →
      membershipInferenceText a = toFixedQ 1 (x * 100) ++ "%") ∧
    (a.membership_inference_defense_success_rate = none →
      membershipInferenceText a = "NaN%") ∧
    (∀ x, a.model_inversion_defense_score = some x →
      modelInversionText a = toFixedQ 1 (x * 100) ++ "%") ∧
    (a.model_inversion_defense_score = none → modelInversionText a = "NaN%") := by
  have hd : ("δ = " ++ "N/A" : String) = "δ = N/A" := by decide
  have hn : ("Noise: " ++ "N/A" : String) = "Noise: N/A" := by decide
  have hc : ("Clip: " ++ "N/A" : String) = "Clip: N/A" := by decide
  have hx : ("NaN" ++ "%" : String) = "NaN%" := by decide
  have hz : ("0" ++ " MB" : String) = "0 MB" := by decide
  refine ⟨fun x h => ?_, fun h => ?_, fun x h => ?_, fun h => ?_, fun x h => ?_,
    fun h => ?_, fun x h => ?_, fun h => ?_, fun x h => ?_, fun h => ?_,
    fun x h => ?_, fun h => ?_, fun x h => ?_, fun h => ?_, fun x h => ?_,
    fun h => ?_, fun x h => ?_, fun h => ?_, fun x h => ?_, fun h => ?_⟩ <;>
  simp [aucCardValue, recallCardValue, epsilonCardValue, commCostCardValue,
    deltaChipLabel, noiseChipLabel, clipChipLabel, overallDefenseText,
    membershipInferenceText, modelInversionText, h, hd, hn, hc, hx, hz]

/-- C6 counterexample: an absent communication cost renders `0 MB`, not the
literal `N/A`, and an absent membership-inference rate renders `NaN%`, not
`N/A`. -/
theorem na_fallback_counterexample :
    commCostCardValue
      ⟨⟨none, none⟩, ⟨none, none⟩, ⟨none, none, none, none⟩, none, none⟩ = "0 MB" ∧
    ("0 MB" : String) ≠ "N/A" ∧
    membershipInferenceText ⟨none, none, none⟩ = "NaN%" ∧
    ("NaN%" : String) ≠ "N/A" :=
  ⟨by decide, by decide, by decide, by decide⟩

/-- C6 witness: on a concrete snapshot the rendered values are
`0.9500`, `0.8800`, `1.20`, `12.34 MB`, `δ = 1.00e-5`, `95.7%`, `NaN%`. -/
theorem numeric_field_rendering_witness :
    aucCardValue sampleMetrics = "0.9500" ∧
    recallCardValue sampleMetrics = "0.8800" ∧
    epsilonCardValue sampleMetrics = "1.20" ∧
    commCostCardValue sampleMetrics = "12.34 MB" ∧
    deltaChipLabel sampleMetrics.privacy_metrics = "δ = 1.00e-5" ∧
    overallDefenseText sampleAttacks = "95.7%" ∧
    membershipInferenceText sampleAttacks = "NaN%" := by
  obtain ⟨ha, -, hr, -, he, -, hc, -, hd, -, -, -, -, -, ho, -, -, hm, -, -⟩ :=
    numeric_field_rendering sampleMetrics sampleAttacks
  refine ⟨?_, ?_, ?_, ?_, ?_, ?_, ?_⟩
  · rw [ha 0.95 rfl]; with_unfolding_all decide
  · rw [hr 0.88 rfl]; with_unfolding_all decide
  · rw [he 1.2 rfl]; with_unfolding_all decide
  · rw [hc 12.34 rfl]; with_unfolding_all decide
  · rw [hd (1 / 100000) rfl]; with_unfolding_all decide
  · rw [ho 0.957 rfl]; with_unfolding_all decide
  · exact hm rfl

/-- C7: the banner text carries the progress percentage, rounded to zero
decimals in parentheses, exactly when the status tag is `training`; with tag
`training` and progress 42.3 the appended text is `(42%)`. -/
theorem banner_text_progress (st : StatusSnapshot) :
    (st.status = "training" →
      statusBannerText st =
        st.message ++ " " ++ ("(" ++ toFixedQ 0 st.progress_percentage ++ "%)")) ∧
    (st.status ≠ "training" → statusBannerText st = st.message ++ " ") ∧
    (st.status = "training" → st.progress_percentage = 42.3 →
      statusBannerText st = st.message ++ " " ++ "(42%)") := by
  refine ⟨fun h => ?_, fun h => ?_, fun h hp => ?_⟩
  · simp [statusBannerText, h]
  · simp [statusBannerText, h]
  · have h42 : toFixedQ 0 (42.3 : ℚ) = "42" := by with_unfolding_all decide
    have hlit : ("(" ++ "42" ++ "%)" : String) = "(42%)" := by decide
    simp [statusBannerText, h, hp, h42, hlit]

/-- C7 witness: with tag `training`, message `Epoch 3` and progress 42.3 the
banner text is `Epoch 3 (42%)`. -/
theorem banner_text_progress_witness :
    statusBannerText ⟨"training", "Epoch 3", 42.3⟩ = "Epoch 3 (42%)" := by
  have h := (banner_text_progress ⟨"training", "Epoch 3", 42.3⟩).2.2 rfl rfl
  rw [h]; decide

/-- C8 counterexample: with `loading` false, `metrics` null and `error`
bound to the empty string — a non-null error message — the `error &&
!metrics` guard is falsy (JavaScript treats the empty string as false) and
the train-first banner does not render, contradicting the claimed
if-and-only-if. -/
theorem train_first_banner_counterexample :
    ({ metrics := none, status := none, loading := false,
       error := some "" } : ViewState).metrics = none ∧
    ({ metrics := none, status := none, loading := false,
       error := some "" } : ViewState).error ≠ none ∧
    trainFirstBannerShown
      { metrics := none, status := none, loading := false,
        error := some "" } = false := by
  refine ⟨rfl, by simp, by decide⟩

/-- C8 (amended): after loading is false, the train-first warning banner is
rendered if and only if the stored metrics value is null and the error
field holds a non-null, non-empty message (the `error && !metrics` guard
follows JavaScript truthiness, so an empty-string message suppresses it). -/
theorem train_first_banner_iff (s : ViewState) (h : s.loading = false) :
    trainFirstBannerShown s = true ↔
      s.metrics = none ∧ ∃ msg, s.error = some msg ∧ msg ≠ "" := by
  rcases s with ⟨m, st, l, e⟩
  simp only at h
  subst h
  cases e with
  | none => simp [trainFirstBannerShown, errorTruthy]
  | some msg =>
    cases m <;> simp [trainFirstBannerShown, errorTruthy, Option.isNone]

/-- C8 witness: with a non-empty error message and no metrics, the banner
renders. -/
theorem train_first_banner_iff_witness :
    trainFirstBannerShown
      { metrics := none, status := none, loading := false,
        error := some "Request failed with status code 500" } = true :=
  (train_first_banner_iff _ rfl).mpr
    ⟨rfl, "Request failed with status code 500", rfl, by decide⟩

/-- C9: when `privacy_metrics.epsilon` is absent, both the privacy-budget
card value (`epsilon?.toFixed(2) || 'N/A'`) and the ε chip
(`` `ε = ${...}` ``) display the literal text `N/A`. -/
theorem epsilon_absent_renders_na (m : MetricsSnapshot)
    (h : m.privacy_metrics.epsilon = none) :
    epsilonCardValue m = "N/A" ∧
    epsilonChipLabel m.privacy_metrics = "ε = N/A" := by
  have hlit : ("ε = " ++ "N/A" : String) = "ε = N/A" := by decide
  exact ⟨by simp [epsilonCardValue, h], by simp [epsilonChipLabel, h, hlit]⟩

/-- C9 witness: on a concrete snapshot with ε absent, both renderings show
`N/A`. -/
theorem epsilon_absent_renders_na_witness :
    epsilonCardValue
      ⟨⟨none, none⟩, ⟨none, none⟩, ⟨none, none, none, none⟩, none, none⟩ = "N/A" ∧
    epsilonChipLabel ⟨none, none, none, none⟩ = "ε = N/A" :=
  epsilon_absent_renders_na
    ⟨⟨none, none⟩, ⟨none, none⟩, ⟨none, none, none, none⟩, none, none⟩ rfl

/-- C10: the improvement chip renders exactly when the improvement value is
defined and strictly positive (`improvement !== undefined && improvement >
0`), and a displayed improvement is prefixed with `+` and rendered with one
decimal place followed by `%`. -/
theorem improvement_chip_rendering :
    (∀ imp : Option ℚ,
      improvementChipShown imp = true ↔ ∃ v, imp = some v ∧ 0 < v) ∧
    (∀ v : ℚ, 0 < v → improvementChipLabel v = "+" ++ toFixedQ 1 v ++ "%") := by
  constructor
  · intro imp
    cases imp with
    | none => simp [improvementChipShown]
    | some v => simp [improvementChipShown]
  · intro v hv
    simp [improvementChipLabel, hv]

/-- C10 witness: an improvement of 2.5 renders the chip `+2.5%`; an
improvement of 0 renders no chip. -/
theorem improvement_chip_rendering_witness :
    improvementChipShown (some 2.5) = true ∧
    improvementChipShown (some 0) = false ∧
    improvementChipLabel 2.5 = "+2.5%" := by
  refine ⟨?_, ?_, ?_⟩
  · exact (improvement_chip_rendering.1 (some 2.5)).mpr ⟨2.5, rfl, by norm_num⟩
  · have h := improvement_chip_rendering.1 (some (0 : ℚ))
    have h2 : ¬ (improvementChipShown (some (0 : ℚ)) = true) := by
      rw [h]
      rintro ⟨v, hv, hpos⟩
      rw [Option.some_inj] at hv
      rw [← hv] at hpos
      exact lt_irrefl 0 hpos
    simpa using h2
  · have h := improvement_chip_rendering.2 2.5 (by norm_num)
    rw [h]; with_unfolding_all decide
